import Mathlib

/-!
Verification of the coordinate-validation and record-reconciliation pipeline
of `src/app.py` (Mapping 3 Pulau).

Coordinates are modelled as rationals; a possibly-missing (NaN) scalar is an
`Option ℚ` with `none` playing the role of NaN (every comparison against NaN
is false in the source, which the `Option` pattern matches reproduce).
Restaurant names are strings; a missing name is `none`.  The pandas
`.str.upper()` normalization is modelled by mapping `Char.toUpper` over the
characters of the string.
-/

/-- An axis-aligned bounding box in degrees, as in `Config` of `app.py`. -/
structure Box where
  min_lat : ℚ
  max_lat : ℚ
  min_lon : ℚ
  max_lon : ℚ
deriving DecidableEq

/-- Membership of a point in a box: all four bounds closed, exactly the
comparison chain `min_lat <= lat <= max_lat and min_lon <= lon <= max_lon`
used in `is_in_forbidden_area` and `validate_indonesia_strict`. -/
def insideBox (b : Box) (lat lon : ℚ) : Prop :=
  b.min_lat ≤ lat ∧ lat ≤ b.max_lat ∧ b.min_lon ≤ lon ∧ lon ≤ b.max_lon

instance (b : Box) (lat lon : ℚ) : Decidable (insideBox b lat lon) := by
  unfold insideBox; infer_instance

/-- `Config.INDONESIA_STRICT_BOUNDS`: the five named inclusion regions. -/
def INDONESIA_STRICT_BOUNDS : List (String × Box) := [
  ("sumatera",   ⟨-6.0, 5.5, 95.0, 105.8⟩),
  ("jawa",       ⟨-8.9, -5.5, 105.5, 114.5⟩),
  ("kalimantan", ⟨-4.2, 4.0, 108.5, 119.0⟩),
  ("bali_nt",    ⟨-9.5, -8.0, 115.0, 119.0⟩),
  ("sulawesi",   ⟨-6.5, 1.5, 118.5, 125.0⟩)]

/-- `Config.FORBIDDEN_AREAS`: the six exclusion boxes (neighbouring
territories), in source order: West Malaysia, Singapore, East Malaysia and
Brunei, southern Philippines, Timor Leste, Papua New Guinea. -/
def FORBIDDEN_AREAS : List Box := [
  ⟨1.0, 7.0, 99.0, 105.0⟩,
  ⟨1.2, 1.5, 103.5, 104.2⟩,
  ⟨4.0, 8.0, 109.0, 120.0⟩,
  ⟨4.0, 7.0, 116.0, 127.0⟩,
  ⟨-9.5, -8.0, 124.0, 127.5⟩,
  ⟨-11.0, -1.0, 140.0, 155.0⟩]

/-- `is_in_forbidden_area(lat, lon)`: true when the point lies inside any
exclusion box (the loop returns `True` on the first hit, `False` after). -/
def is_in_forbidden_area (lat lon : ℚ) : Bool :=
  FORBIDDEN_AREAS.any (fun area => decide (insideBox area lat lon))

/-- `validate_indonesia_strict(lat, lon)`: reject NaN, reject out of global
range, reject points in a forbidden area, then accept exactly the points in
at least one of the `INDONESIA_STRICT_BOUNDS` regions (default deny). -/
def validate_indonesia_strict (lat lon : Option ℚ) : Bool :=
  match lat, lon with
  | some la, some lo =>
    if ¬(-90 ≤ la ∧ la ≤ 90) ∨ ¬(-180 ≤ lo ∧ lo ≤ 180) then false
    else if is_in_forbidden_area la lo then false
    else INDONESIA_STRICT_BOUNDS.any (fun rb => decide (insideBox rb.2 la lo))
  | _, _ => false

/-- A row of the numeric coordinate frame handed to
`detect_and_fix_coordinate_issues`: two scalars, each possibly NaN. -/
structure Row where
  lat : Option ℚ
  lon : Option ℚ
deriving DecidableEq

/-- The mask `(df[lat].abs() > 90) | (df[lon].abs() > 180) | (df[lat] == 0)
| (df[lon] == 0)` computed in `detect_and_fix_coordinate_issues`; every
comparison against NaN is false. -/
def clearlyWrongRow (r : Row) : Bool :=
  (match r.lat with | some la => decide (|la| > 90) | none => false) ||
  (match r.lon with | some lo => decide (|lo| > 180) | none => false) ||
  (match r.lat with | some la => decide (la = 0) | none => false) ||
  (match r.lon with | some lo => decide (lo = 0) | none => false)

/-- Row-wise `is_in_forbidden_area(row[lat], row[lon])`; with a NaN
coordinate all the comparisons inside are false, so the result is false. -/
def inForbiddenRow (r : Row) : Bool :=
  match r.lat, r.lon with
  | some la, some lo => is_in_forbidden_area la lo
  | _, _ => false

/-- The observable outcome of `detect_and_fix_coordinate_issues`: the rows
it returns plus the three diagnostic counts it reports. -/
structure CleanResult where
  valid : List Row
  clearlyWrongCount : ℕ
  neighborCount : ℕ
  removedCount : ℕ
deriving DecidableEq

/-- `detect_and_fix_coordinate_issues(df, lat_col, lon_col, ...)`: counts the
clearly-wrong rows and the rows in neighbouring countries (both only
reported), and returns the rows passing `validate_indonesia_strict` (the
mask `valid_mask`); `removed_count = len(df) - len(valid_data)`. -/
def detect_and_fix_coordinate_issues (rows : List Row) : CleanResult :=
  let clearly_wrong := rows.filter clearlyWrongRow
  let in_neighbor_countries := rows.filter inForbiddenRow
  let valid_data := rows.filter (fun r => validate_indonesia_strict r.lat r.lon)
  { valid := valid_data
    clearlyWrongCount := clearly_wrong.length
    neighborCount := in_neighbor_countries.length
    removedCount := rows.length - valid_data.length }

/-- A cell of a raw input table: NaN, a number, or a text value; a text cell
carries the numeric value `pd.to_numeric(..., errors="coerce")` would parse
from it, when there is one. -/
inductive Cell where
  | nan : Cell
  | num : ℚ → Cell
  | txt : Option ℚ → Cell
deriving DecidableEq

/-- Whether the cell is missing, as tested by `dropna`. -/
def Cell.isNa : Cell → Bool
  | .nan => true
  | _ => false

/-- The effect of `pd.to_numeric(..., errors="coerce")` on one cell. -/
def toNumericCell : Cell → Cell
  | .nan => .nan
  | .num q => .num q
  | .txt (some q) => .num q
  | .txt none => .nan

/-- A raw table: a list of column names plus rows of cells aligned with the
column list (the model of a pandas DataFrame). -/
structure Table where
  cols : List String
  rows : List (List Cell)
deriving DecidableEq

/-- Cell of `row` in column `c` (NaN when the column or the cell is
absent). -/
def getCol (cols : List String) (row : List Cell) (c : String) : Cell :=
  match cols.findIdx? (· == c) with
  | some i => row.getD i .nan
  | none => .nan

/-- Apply `toNumericCell` at column `c` of one row. -/
def setNumeric (cols : List String) (c : String) (row : List Cell) : List Cell :=
  match cols.findIdx? (· == c) with
  | some i => row.set i (toNumericCell (row.getD i .nan))
  | none => row

/-- View a (post-coercion) cell as a possibly-NaN scalar. -/
def cellCoord : Cell → Option ℚ
  | .num q => some q
  | _ => none

/-- `clean_and_validate_coordinates_strict(df, lat_col, lon_col, ...)`:
return an empty frame (no rows) when the frame is empty or a requested
column is missing; otherwise drop NaN coordinates, coerce both coordinate
columns to numeric, drop NaN again, and keep the rows accepted by
`validate_indonesia_strict` (the final filter performed by
`detect_and_fix_coordinate_issues`). -/
def clean_and_validate_coordinates_strict (df : Table) (latCol lonCol : String) : Table :=
  if df.rows.isEmpty then df
  else if ¬(latCol ∈ df.cols ∧ lonCol ∈ df.cols) then ⟨[], []⟩
  else
    let df1 := df.rows.filter (fun row =>
      !(getCol df.cols row latCol).isNa && !(getCol df.cols row lonCol).isNa)
    let df2 := df1.map (fun row => setNumeric df.cols lonCol (setNumeric df.cols latCol row))
    let df3 := df2.filter (fun row =>
      !(getCol df.cols row latCol).isNa && !(getCol df.cols row lonCol).isNa)
    if df3.isEmpty then ⟨df.cols, df3⟩
    else ⟨df.cols, df3.filter (fun row =>
      validate_indonesia_strict (cellCoord (getCol df.cols row latCol))
        (cellCoord (getCol df.cols row lonCol)))⟩

/-- The pandas `.str.upper()` normalization of a name. -/
def upper (s : String) : String := ⟨s.data.map Char.toUpper⟩

/-- A record of one of the three canonical sets built in
`load_and_process_data_strict` (green, orange, blue): a possibly-missing
restaurant name plus the validated coordinates. -/
structure CanonicalRecord where
  nama_restoran : Option String
  lat : ℚ
  lon : ℚ
deriving DecidableEq

/-- `set(green_data["nama_restoran"].str.upper().dropna().unique())`: the
uppercased non-missing names of the matched set, deduplicated. -/
def matched_names (green : List CanonicalRecord) : List String :=
  (green.filterMap (fun r => r.nama_restoran.map upper)).dedup

/-- One row of the mask `~data["nama_restoran"].str.upper().isin(names)`:
a missing name is never a member of the set (NaN `isin` is false), so the
row is kept. -/
def keepUnmatched (names : List String) (r : CanonicalRecord) : Bool :=
  match r.nama_restoran with
  | some n => !(names.contains (upper n))
  | none => true

/-- The matched-name filter applied to the ESB and to the scraping set in
`load_and_process_data_strict`; it only runs when the matched (green) set is
nonempty. -/
def filter_matched (green rows : List CanonicalRecord) : List CanonicalRecord :=
  if green.isEmpty then rows
  else rows.filter (keepUnmatched (matched_names green))

/-- `original_count - len(filtered)`: the per-side removed count reported by
`load_and_process_data_strict`. -/
def removed_count (green rows : List CanonicalRecord) : ℕ :=
  rows.length - (filter_matched green rows).length

/-- The three-way reconciliation of `load_and_process_data_strict`: the
matched set passes through, the ESB and the scraping sets are filtered
against the matched names. -/
def reconcile (green orange blue : List CanonicalRecord) :
    List CanonicalRecord × List CanonicalRecord × List CanonicalRecord :=
  (green, filter_matched green orange, filter_matched green blue)

/-- Characterization of the validator on non-missing scalars: range check,
no forbidden box, at least one inclusion region. -/
lemma validate_some_iff (la lo : ℚ) :
    validate_indonesia_strict (some la) (some lo) = true ↔
      ((-90 ≤ la ∧ la ≤ 90) ∧ (-180 ≤ lo ∧ lo ≤ 180)) ∧
      (∀ b ∈ FORBIDDEN_AREAS, ¬ insideBox b la lo) ∧
      ∃ rb ∈ INDONESIA_STRICT_BOUNDS, insideBox rb.2 la lo := by
  show (if ¬(-90 ≤ la ∧ la ≤ 90) ∨ ¬(-180 ≤ lo ∧ lo ≤ 180) then false
    else if is_in_forbidden_area la lo then false
    else INDONESIA_STRICT_BOUNDS.any (fun rb => decide (insideBox rb.2 la lo))) = true ↔ _
  split_ifs with h1 h2
  · simp only [Bool.false_eq_true, false_iff]
    rintro ⟨⟨ha, hb⟩, -, -⟩
    rcases h1 with h | h
    · exact h ha
    · exact h hb
  · simp only [Bool.false_eq_true, false_iff]
    rintro ⟨-, hforb, -⟩
    unfold is_in_forbidden_area at h2
    rw [List.any_eq_true] at h2
    obtain ⟨b, hb, hbi⟩ := h2
    rw [decide_eq_true_eq] at hbi
    exact hforb b hb hbi
  · rw [List.any_eq_true]
    push_neg at h1
    constructor
    · rintro ⟨rb, hrb, hin⟩
      rw [decide_eq_true_eq] at hin
      refine ⟨h1, ?_, rb, hrb, hin⟩
      intro b hb hbi
      apply h2
      unfold is_in_forbidden_area
      rw [List.any_eq_true]
      exact ⟨b, hb, by rw [decide_eq_true_eq]; exact hbi⟩
    · rintro ⟨-, -, rb, hrb, hin⟩
      exact ⟨rb, hrb, by rw [decide_eq_true_eq]; exact hin⟩

/-- Claim C1: the GeoRegion Validator accepts a latitude/longitude pair if
and only if neither coordinate is missing, both are in the global range,
the point lies inside no exclusion box, and the point lies inside at least
one inclusion box, with box membership closed on all four bounds; in
particular a point inside no inclusion box and no exclusion box is
rejected. -/
theorem validate_indonesia_strict_iff (lat lon : Option ℚ) :
    validate_indonesia_strict lat lon = true ↔
      ∃ la lo, lat = some la ∧ lon = some lo ∧
        (-90 ≤ la ∧ la ≤ 90) ∧ (-180 ≤ lo ∧ lo ≤ 180) ∧
        (∀ b ∈ FORBIDDEN_AREAS, ¬ insideBox b la lo) ∧
        ∃ rb ∈ INDONESIA_STRICT_BOUNDS, insideBox rb.2 la lo := by
  cases lat with
  | none =>
    cases lon <;> simp [validate_indonesia_strict]
  | some la =>
    cases lon with
    | none => simp [validate_indonesia_strict]
    | some lo =>
      rw [validate_some_iff]
      constructor
      · rintro ⟨⟨h1, h2⟩, h3, h4⟩
        exact ⟨la, lo, rfl, rfl, h1, h2, h3, h4⟩
      · rintro ⟨la', lo', hla, hlo, h1, h2, h3, h4⟩
        rw [Option.some.injEq] at hla hlo
        subst hla; subst hlo
        exact ⟨⟨h1, h2⟩, h3, h4⟩

/-- Claim C2: exclusion dominance.  A point inside any forbidden (exclusion)
box is rejected by the validator, whether or not it also lies inside an
inclusion box. -/
theorem forbidden_area_dominates (la lo : ℚ)
    (h : is_in_forbidden_area la lo = true) :
    validate_indonesia_strict (some la) (some lo) = false := by
  show (if ¬(-90 ≤ la ∧ la ≤ 90) ∨ ¬(-180 ≤ lo ∧ lo ≤ 180) then false
    else if is_in_forbidden_area la lo then false
    else INDONESIA_STRICT_BOUNDS.any (fun rb => decide (insideBox rb.2 la lo))) = false
  by_cases h1 : ¬(-90 ≤ la ∧ la ≤ 90) ∨ ¬(-180 ≤ lo ∧ lo ≤ 180)
  · rw [if_pos h1]
  · rw [if_neg h1, if_pos h]

/-- Witness for C2: the point (1.35, 103.8) lies in the Singapore exclusion
box and also in the Sumatera inclusion box, and the validator rejects it. -/
theorem forbidden_area_dominates_witness :
    is_in_forbidden_area 1.35 103.8 = true ∧
    (∃ rb ∈ INDONESIA_STRICT_BOUNDS, insideBox rb.2 1.35 103.8) ∧
    validate_indonesia_strict (some 1.35) (some 103.8) = false := by
  have hf : is_in_forbidden_area (1.35 : ℚ) (103.8 : ℚ) = true := by
    simp only [is_in_forbidden_area, FORBIDDEN_AREAS, List.any_cons, List.any_nil,
      Bool.or_eq_true, decide_eq_true_eq, insideBox]
    norm_num
  refine ⟨hf, ?_, forbidden_area_dominates _ _ hf⟩
  refine ⟨("sumatera", ⟨-6.0, 5.5, 95.0, 105.8⟩), ?_, ?_⟩
  · simp [INDONESIA_STRICT_BOUNDS]
  · show ((-6.0 : ℚ) ≤ 1.35 ∧ (1.35 : ℚ) ≤ 5.5 ∧ (95.0 : ℚ) ≤ 103.8 ∧ (103.8 : ℚ) ≤ 105.8)
    norm_num

/-- Claim C10: accepted-region envelope.  Every point the validator accepts
has latitude in [-9.5, 5.5] and longitude in [95, 125], the envelope of the
five inclusion boxes; hence every point with longitude above 125 is
rejected. -/
theorem accepted_envelope (la lo : ℚ)
    (h : validate_indonesia_strict (some la) (some lo) = true) :
    -9.5 ≤ la ∧ la ≤ 5.5 ∧ 95 ≤ lo ∧ lo ≤ 125 := by
  obtain ⟨-, -, rb, hrb, hin⟩ := (validate_some_iff la lo).mp h
  simp only [INDONESIA_STRICT_BOUNDS, List.mem_cons, List.not_mem_nil, or_false] at hrb
  obtain ⟨h1, h2, h3, h4⟩ : rb.2.min_lat ≤ la ∧ la ≤ rb.2.max_lat ∧
      rb.2.min_lon ≤ lo ∧ lo ≤ rb.2.max_lon := hin
  rcases hrb with rfl | rfl | rfl | rfl | rfl <;>
    simp only at h1 h2 h3 h4 <;>
    refine ⟨by linarith, by linarith, by linarith, by linarith⟩

/-- Witness for C10: central Jakarta (-6.2, 106.8) is accepted (it lies in
the Java inclusion box and in no exclusion box) and satisfies the
envelope. -/
theorem accepted_envelope_witness :
    validate_indonesia_strict (some (-6.2)) (some 106.8) = true ∧
    (-9.5 ≤ (-6.2 : ℚ) ∧ (-6.2 : ℚ) ≤ 5.5 ∧ 95 ≤ (106.8 : ℚ) ∧ (106.8 : ℚ) ≤ 125) := by
  have hv : validate_indonesia_strict (some (-6.2 : ℚ)) (some (106.8 : ℚ)) = true := by
    rw [validate_some_iff]
    refine ⟨by norm_num, ?_, ("jawa", ⟨-8.9, -5.5, 105.5, 114.5⟩), ?_, ?_⟩
    · intro b hb
      simp only [FORBIDDEN_AREAS, List.mem_cons, List.not_mem_nil, or_false] at hb
      rcases hb with rfl | rfl | rfl | rfl | rfl | rfl <;>
        · simp only [insideBox]; norm_num
    · simp [INDONESIA_STRICT_BOUNDS]
    · show ((-8.9 : ℚ) ≤ -6.2 ∧ (-6.2 : ℚ) ≤ -5.5 ∧ (105.5 : ℚ) ≤ 106.8 ∧ (106.8 : ℚ) ≤ 114.5)
      norm_num
  exact ⟨hv, accepted_envelope _ _ hv⟩

/-- The validator accepts (0, 103): latitude zero, inside the Sumatera box,
in no forbidden box. -/
lemma validate_zero_lat_103 :
    validate_indonesia_strict (some 0) (some 103) = true := by
  rw [validate_some_iff]
  refine ⟨by norm_num, ?_, ("sumatera", ⟨-6.0, 5.5, 95.0, 105.8⟩), ?_, ?_⟩
  · intro b hb
    simp only [FORBIDDEN_AREAS, List.mem_cons, List.not_mem_nil, or_false] at hb
    rcases hb with rfl | rfl | rfl | rfl | rfl | rfl <;>
      · simp only [insideBox]; norm_num
  · simp [INDONESIA_STRICT_BOUNDS]
  · show ((-6.0 : ℚ) ≤ 0 ∧ (0 : ℚ) ≤ 5.5 ∧ (95.0 : ℚ) ≤ 103 ∧ (103 : ℚ) ≤ 105.8)
    norm_num

/-- The validator rejects the origin (0, 0): it is in no inclusion box. -/
lemma validate_origin_false :
    validate_indonesia_strict (some 0) (some 0) = false := by
  rw [Bool.eq_false_iff, Ne, validate_some_iff]
  rintro ⟨-, -, rb, hrb, hin⟩
  obtain ⟨h1, h2, h3, h4⟩ : rb.2.min_lat ≤ 0 ∧ (0 : ℚ) ≤ rb.2.max_lat ∧
      rb.2.min_lon ≤ 0 ∧ (0 : ℚ) ≤ rb.2.max_lon := hin
  simp only [INDONESIA_STRICT_BOUNDS, List.mem_cons, List.not_mem_nil, or_false] at hrb
  rcases hrb with rfl | rfl | rfl | rfl | rfl <;> simp only at h1 h2 h3 h4 <;> norm_num at h1 h2 h3 h4

/-- Counterexample to claim C3: the row (0, 103) has latitude exactly 0, so
the clearly-wrong mask flags it, yet `detect_and_fix_coordinate_issues`
keeps it in the cleaned output (the mask is only counted, never applied, and
the region validator accepts the point). -/
theorem zero_lat_row_kept :
    clearlyWrongRow ⟨some 0, some 103⟩ = true ∧
    (detect_and_fix_coordinate_issues [⟨some 0, some 103⟩]).valid =
      [⟨some 0, some 103⟩] := by
  constructor
  · simp only [clearlyWrongRow, Bool.or_eq_true, decide_eq_true_eq]
    norm_num
  · simp [detect_and_fix_coordinate_issues, List.filter, validate_zero_lat_103]

/-- Claim C3 as amended: a row with latitude or longitude exactly 0 is
flagged by the clearly-wrong mask, but that mask only feeds the diagnostic
count and removes nothing; every row reaches the region validator, and the
cleaned output is exactly the rows the validator accepts.  The point
(0.0, 0.0) in particular is rejected by the validator itself (it lies in no
inclusion box), so it never appears in the cleaned output. -/
theorem zero_coordinate_flagged_not_dropped (rows : List Row) (r : Row)
    (h : r.lat = some 0 ∨ r.lon = some 0) :
    clearlyWrongRow r = true ∧
    (detect_and_fix_coordinate_issues rows).valid =
      rows.filter (fun x => validate_indonesia_strict x.lat x.lon) ∧
    validate_indonesia_strict (some 0) (some 0) = false ∧
    (⟨some 0, some 0⟩ : Row) ∉ (detect_and_fix_coordinate_issues rows).valid := by
  have hvalid : (detect_and_fix_coordinate_issues rows).valid =
      rows.filter (fun x => validate_indonesia_strict x.lat x.lon) := rfl
  refine ⟨?_, hvalid, validate_origin_false, ?_⟩
  · obtain ⟨rlat, rlon⟩ := r
    rcases h with h | h <;> simp only at h <;> subst h <;>
      · simp only [clearlyWrongRow, Bool.or_eq_true, decide_eq_true_eq]
        norm_num
  · intro hm
    rw [hvalid, List.mem_filter] at hm
    have := hm.2
    rw [validate_origin_false] at this
    exact Bool.false_ne_true this

/-- Witness for the amended C3, at the one-row frame containing the
origin. -/
theorem zero_coordinate_flagged_not_dropped_witness :
    ((⟨some 0, some 0⟩ : Row).lat = some 0 ∨ (⟨some 0, some 0⟩ : Row).lon = some 0) ∧
    (clearlyWrongRow ⟨some 0, some 0⟩ = true ∧
      (detect_and_fix_coordinate_issues [⟨some 0, some 0⟩]).valid =
        [(⟨some 0, some 0⟩ : Row)].filter (fun x => validate_indonesia_strict x.lat x.lon) ∧
      validate_indonesia_strict (some 0) (some 0) = false ∧
      (⟨some 0, some 0⟩ : Row) ∉ (detect_and_fix_coordinate_issues [⟨some 0, some 0⟩]).valid) :=
  ⟨Or.inl rfl, zero_coordinate_flagged_not_dropped [⟨some 0, some 0⟩] ⟨some 0, some 0⟩ (Or.inl rfl)⟩

/-- Claim C4: disjointness after reconciliation.  A record remaining in a
filtered side (the same filter serves the ESB and the scraping side) never
carries a name whose uppercase form is among the uppercased matched names,
so the normalized matched names and the normalized names of either filtered
side are disjoint; the comparison is exact case-insensitive equality. -/
theorem reconcile_disjoint (green rows : List CanonicalRecord)
    (r : CanonicalRecord) (n : String)
    (hr : r ∈ filter_matched green rows) (hn : r.nama_restoran = some n) :
    upper n ∉ matched_names green := by
  unfold filter_matched at hr
  by_cases hg : green.isEmpty
  · rw [if_pos hg] at hr
    rw [List.isEmpty_iff.mp hg]
    simp [matched_names]
  · rw [if_neg hg] at hr
    have hk := (List.mem_filter.mp hr).2
    simp only [keepUnmatched, hn, Bool.not_eq_true'] at hk
    simpa using hk

/-- Witness for C4, realizing concrete scenario D: the matched set holds
"WARUNG PADANG JAYA", the primary side holds "warung padang jaya" (different
case) and "SOTO"; the lowercase record is removed, the surviving record has
a name outside the matched names. -/
theorem reconcile_disjoint_witness :
    ((⟨some "SOTO", 1, 1⟩ : CanonicalRecord) ∈
      filter_matched [⟨some "WARUNG PADANG JAYA", 0, 0⟩]
        [⟨some "warung padang jaya", 0, 0⟩, ⟨some "SOTO", 1, 1⟩]) ∧
    upper "SOTO" ∉ matched_names [⟨some "WARUNG PADANG JAYA", 0, 0⟩] ∧
    filter_matched [⟨some "WARUNG PADANG JAYA", 0, 0⟩]
        [⟨some "warung padang jaya", 0, 0⟩, ⟨some "SOTO", 1, 1⟩] =
      [⟨some "SOTO", 1, 1⟩] :=
  ⟨by decide,
   reconcile_disjoint [⟨some "WARUNG PADANG JAYA", 0, 0⟩]
     [⟨some "warung padang jaya", 0, 0⟩, ⟨some "SOTO", 1, 1⟩]
     ⟨some "SOTO", 1, 1⟩ "SOTO" (by decide) rfl,
   by decide⟩

/-- Claim C6: empty-matched pass-through.  With an empty matched set the
reconciler returns both other sets unchanged and both removed counts are
zero. -/
theorem reconcile_empty_matched (orange blue : List CanonicalRecord) :
    reconcile [] orange blue = ([], orange, blue) ∧
    removed_count [] orange = 0 ∧ removed_count [] blue = 0 := by
  refine ⟨?_, ?_, ?_⟩ <;> simp [reconcile, removed_count, filter_matched]

/-- Claim C9: missing-name retention.  A record whose name is missing is
never removed by the matched-name filter: the matched-name set drops
missing names, and a missing name is not a member of any name set, so the
record survives into the filtered output. -/
theorem missing_name_retained (green rows : List CanonicalRecord)
    (r : CanonicalRecord) (hmem : r ∈ rows) (hname : r.nama_restoran = none) :
    r ∈ filter_matched green rows := by
  unfold filter_matched
  split_ifs with hg
  · exact hmem
  · exact List.mem_filter.mpr ⟨hmem, by simp [keepUnmatched, hname]⟩

/-- Witness for C9: a record with a missing name survives filtering against
a nonempty matched set. -/
theorem missing_name_retained_witness :
    ((⟨none, 1, 2⟩ : CanonicalRecord) ∈ ([⟨none, 1, 2⟩] : List CanonicalRecord)) ∧
    (⟨none, 1, 2⟩ : CanonicalRecord).nama_restoran = none ∧
    (⟨none, 1, 2⟩ : CanonicalRecord) ∈
      filter_matched [⟨some "A", 0, 0⟩] [⟨none, 1, 2⟩] :=
  ⟨List.mem_singleton.mpr rfl, rfl,
   missing_name_retained [⟨some "A", 0, 0⟩] [⟨none, 1, 2⟩] ⟨none, 1, 2⟩
     (List.mem_singleton.mpr rfl) rfl⟩

/-- Two pointwise-equal predicates count the same elements. -/
lemma countP_ext {α : Type} (p q : α → Bool) (l : List α)
    (h : ∀ a ∈ l, p a = q a) : l.countP p = l.countP q := by
  induction l with
  | nil => rfl
  | cons a t ih =>
    rw [List.countP_cons, List.countP_cons, h a (List.mem_cons_self a t),
      ih (fun x hx => h x (List.mem_cons_of_mem a hx))]

/-- Counting the complement of a predicate is the length minus the count. -/
lemma countP_not_eq_length_sub {α : Type} (p : α → Bool) (l : List α) :
    l.countP (fun a => !p a) = l.length - l.countP p := by
  induction l with
  | nil => rfl
  | cons a t ih =>
    have hle := List.countP_le_length (p := p) (l := t)
    by_cases h : p a <;> simp [List.countP_cons, h, ih]
    all_goals omega

/-- Claim C5: reconciliation cardinality.  For either filtered side, the
filtered length is the input length minus the removed count, and the removed
count is exactly the number of input records whose uppercased name appears
among the uppercased matched names (the same filter serves the ESB and the
scraping side). -/
theorem reconcile_cardinality (green rows : List CanonicalRecord) :
    (filter_matched green rows).length = rows.length - removed_count green rows ∧
    removed_count green rows =
      rows.countP (fun r =>
        match r.nama_restoran with
        | some n => (matched_names green).contains (upper n)
        | none => false) := by
  have hle : (filter_matched green rows).length ≤ rows.length := by
    unfold filter_matched
    split_ifs
    · exact le_refl _
    · exact List.length_filter_le _ _
  constructor
  · unfold removed_count
    omega
  · unfold removed_count filter_matched
    split_ifs with hg
    · rw [Nat.sub_self, List.isEmpty_iff.mp hg]
      symm
      rw [List.countP_eq_zero]
      intro a _
      cases ha : a.nama_restoran <;> simp [ha, matched_names]
    · rw [← List.countP_eq_length_filter,
        show rows.countP (fun r =>
            match r.nama_restoran with
            | some n => (matched_names green).contains (upper n)
            | none => false)
          = rows.countP (fun a => !(keepUnmatched (matched_names green) a)) from
          countP_ext _ _ rows (fun a _ => by
            cases ha : a.nama_restoran <;> simp [keepUnmatched, ha]),
        countP_not_eq_length_sub]

/-- Counterexample to claim C7: with matched set `[A]` and primary set
`[A]`, the first run removes one record (count 1) while the second run,
applied to the outputs of the first, removes nothing (count 0), so the
removed counts of the two runs differ. -/
theorem reconcile_second_run_count_differs :
    removed_count [⟨some "A", 0, 0⟩] [⟨some "A", 0, 0⟩] = 1 ∧
    removed_count [⟨some "A", 0, 0⟩]
      (filter_matched [⟨some "A", 0, 0⟩] [⟨some "A", 0, 0⟩]) = 0 := by
  decide

/-- Claim C7 as amended: running the reconciler a second time on its own
three outputs yields the same three output sets as the single run (the
outputs are a fixed point), and the second run removes nothing: its removed
counts are 0, which matches the first run only when the first run already
removed nothing. -/
theorem reconcile_outputs_fixed_point (g o b : List CanonicalRecord) :
    reconcile g (filter_matched g o) (filter_matched g b) = reconcile g o b ∧
    removed_count g (filter_matched g o) = 0 ∧
    removed_count g (filter_matched g b) = 0 := by
  have key : ∀ rows, filter_matched g (filter_matched g rows) = filter_matched g rows := by
    intro rows
    unfold filter_matched
    split_ifs with hg
    · rfl
    · simp [List.filter_filter]
  refine ⟨?_, ?_, ?_⟩
  · unfold reconcile
    rw [key o, key b]
  · unfold removed_count
    rw [key o, Nat.sub_self]
  · unfold removed_count
    rw [key b, Nat.sub_self]

/-- Claim C8: schema-error containment.  When the requested latitude or
longitude column is absent from the table, the Coordinate Cleaner returns a
result with no rows for that dataset (an empty frame), instead of failing,
so the other datasets can still be processed. -/
theorem missing_column_empty (df : Table) (latCol lonCol : String)
    (h : latCol ∉ df.cols ∨ lonCol ∉ df.cols) :
    (clean_and_validate_coordinates_strict df latCol lonCol).rows = [] := by
  unfold clean_and_validate_coordinates_strict
  by_cases h1 : df.rows.isEmpty
  · rw [if_pos h1]
    exact List.isEmpty_iff.mp h1
  · have hc : ¬(latCol ∈ df.cols ∧ lonCol ∈ df.cols) := by tauto
    rw [if_neg h1, if_pos hc]

/-- Witness for C8: a one-row table whose only column is "x" lacks both
requested coordinate columns, and the cleaner returns no rows for it. -/
theorem missing_column_empty_witness :
    ("latitude" ∉ (Table.mk ["x"] [[Cell.num 1]]).cols ∨
      "longitude" ∉ (Table.mk ["x"] [[Cell.num 1]]).cols) ∧
    (clean_and_validate_coordinates_strict ⟨["x"], [[Cell.num 1]]⟩
      "latitude" "longitude").rows = [] :=
  ⟨Or.inl (by decide),
   missing_column_empty ⟨["x"], [[Cell.num 1]]⟩ "latitude" "longitude" (Or.inl (by decide))⟩
